import Mathlib

/-!
Shallow embedding of the spam-email-detector backend (`server.js`).

Text is modelled as `List Char`; JavaScript's `toLowerCase` is modelled
per character with `Char.toLower` (all lexicon indicators are ASCII).
JavaScript numbers are modelled as exact rationals `ℚ`: every comparison
the code performs (`probability >= 0.5`, `probability * 100 >= 40`) gives
the same answer on the rationals as on IEEE doubles at all reachable
probabilities `min 1 (n/5)` and at the spec's test points `0.39`/`0.40`,
since none of those sit on a rounding boundary.

The HTTP handlers are modelled as pure state-passing functions over the
list of persisted records; the external mail transport is modelled by a
boolean `mailOk` (does the `transporter.sendMail` call succeed), and the
MongoDB query collaborator is modelled from the spec (see `findSortLimit`).
-/

namespace SpamDetector

set_option maxRecDepth 8192

/-- Message text, modelled as a list of characters. -/
abbrev Text := List Char

/-- JavaScript `text.toLowerCase()` (per-character ASCII lowering). -/
def lowerText (t : Text) : Text := t.map Char.toLower

/-- The lexicon of `server.js` (`SPAM_KEYWORDS`), in source order. -/
def SPAM_KEYWORDS : List Text :=
  ["free".toList, "win".toList, "winner".toList, "prize".toList,
   "congratulations".toList, "click here".toList, "lottery".toList,
   "cash".toList, "urgent".toList, "offer".toList,
   "limited time".toList, "buy now".toList]

/-- JavaScript `Math.min` on two numbers (the smaller argument). -/
def jsMin (a b : ℚ) : ℚ := if a ≤ b then a else b

/-- Result of `analyzeSpam` in `server.js`. -/
structure SpamAnalysis where
  result : String
  probability : ℚ
  matchedKeywords : List Text
deriving DecidableEq

/-- `analyzeSpam` of `server.js` (lines 49-64): lowercase the text, keep
the keywords that occur as substrings (`lower.includes(word)`), score is
the number of matches, probability is `Math.min(1, score / 5)`, result is
`"spam"` when `probability >= 0.5`, else `"not_spam"`. -/
def analyzeSpam (text : Text) : SpamAnalysis :=
  let lower := lowerText text
  let matched := SPAM_KEYWORDS.filter (fun w => decide (w <:+: lower))
  let score : ℕ := matched.length
  let probability : ℚ := jsMin 1 ((score : ℚ) / 5)
  let result : String := if (0.5 : ℚ) ≤ probability then "spam" else "not_spam"
  { result := result, probability := probability, matchedKeywords := matched }

/-- JavaScript truthiness of an optional string value: `undefined` and the
empty string are falsy, any other string is truthy. -/
def strTruthy : Option Text → Bool
  | none => false
  | some s => !s.isEmpty

/-- The notification gate of `server.js` (lines 137-138):
`(notifyEmail || process.env.ALERT_DEFAULT_TO) && probability * 100 >= 40`. -/
def shouldNotify (notifyEmail defaultTo : Option Text) (probability : ℚ) : Bool :=
  (strTruthy notifyEmail || strTruthy defaultTo) && decide ((40 : ℚ) ≤ probability * 100)

/-- Recipient resolution in `sendAlertEmail` (line 92):
`to: toEmail || process.env.ALERT_DEFAULT_TO`. -/
def resolveRecipient (toEmail defaultTo : Option Text) : Option Text :=
  if strTruthy toEmail then toEmail else defaultTo

/-- A persisted `SpamCheck` document (the Mongoose model, lines 23-31).
`id` is assigned at creation (sequential in this model, standing for the
opaque `_id`), `createdAt` is the creation timestamp. -/
structure Record where
  id : ℕ
  text : Text
  result : String
  spamProbability : ℚ
  matchedKeywords : List Text
  createdAt : ℕ
deriving DecidableEq

/-- JavaScript `text.trim()`: strip whitespace from both ends. -/
def trimText (t : Text) : Text :=
  ((t.dropWhile Char.isWhitespace).reverse.dropWhile Char.isWhitespace).reverse

/-- The validation test of the POST handler (line 121):
`!text || !text.trim()` — text absent, empty, or whitespace-only. -/
def blankText : Option Text → Bool
  | none => true
  | some t => t.isEmpty || (trimText t).isEmpty

/-- The JSON response of `POST /api/spam/check`: the 200 body
(lines 153-159) or the 400 body (line 122). -/
inductive CheckResponse where
  | ok (id : ℕ) (result : String) (spamProbability : ℚ)
      (matchedKeywords : List Text) (createdAt : ℕ)
  | badRequest (message : String)
deriving DecidableEq

/-- Everything observable about one run of the POST handler: the response,
the store after the run, and the e-mail events (was a send attempted, did
it succeed, was a transport error caught and logged at line 149). -/
structure CheckOutcome where
  response : CheckResponse
  store : List Record
  emailAttempted : Bool
  emailSent : Bool
  emailErrorLogged : Bool
deriving DecidableEq

/-- The `POST /api/spam/check` handler (lines 117-164): validate, run
`analyzeSpam`, persist the document, evaluate `shouldNotify`, attempt the
alert e-mail inside try/catch (a transport failure, `mailOk = false`, is
only logged), and respond with the persisted document's fields. The store
is modelled as reachable (`SpamCheck.create` succeeds), which is the case
the notification-related claims condition on. -/
def postSpamCheck (store : List Record) (now : ℕ)
    (text notifyEmail defaultTo : Option Text) (mailOk : Bool) : CheckOutcome :=
  if blankText text then
    { response := .badRequest "Text is required", store := store,
      emailAttempted := false, emailSent := false, emailErrorLogged := false }
  else
    let t := text.getD []
    let a := analyzeSpam t
    let doc : Record :=
      { id := store.length, text := t, result := a.result,
        spamProbability := a.probability, matchedKeywords := a.matchedKeywords,
        createdAt := now }
    let notify := shouldNotify notifyEmail defaultTo a.probability
    { response := .ok doc.id a.result a.probability a.matchedKeywords doc.createdAt,
      store := store ++ [doc],
      emailAttempted := notify,
      emailSent := notify && mailOk,
      emailErrorLogged := notify && !mailOk }

/-- One element of the `GET /api/spam/history` response array
(lines 172-179). -/
structure HistoryView where
  id : ℕ
  result : String
  spamProbability : ℚ
  matchedKeywords : List Text
  text : Text
  createdAt : ℕ
deriving DecidableEq

/-- The display truncation of line 177:
`d.text.length > 80 ? d.text.slice(0, 77) + "..." : d.text`. -/
def truncateText (t : Text) : Text :=
  if 80 < t.length then t.take 77 ++ ("...".toList) else t

/-- The per-document projection of the history handler (lines 172-179). -/
def historyView (d : Record) : HistoryView :=
  { id := d.id, result := d.result, spamProbability := d.spamProbability,
    matchedKeywords := d.matchedKeywords, text := truncateText d.text,
    createdAt := d.createdAt }

/-- The retrieval order: `a` comes no later than `b` when `a` has the
larger `createdAt`, ties broken by the larger `id` (later insertion)
first. -/
def recentLe (a b : Record) : Prop :=
  b.createdAt < a.createdAt ∨ (b.createdAt = a.createdAt ∧ b.id ≤ a.id)

instance : DecidableRel recentLe := fun a b => by
  unfold recentLe; infer_instance

instance : IsTotal Record recentLe :=
  ⟨fun a b => by unfold recentLe; omega⟩

instance : IsTrans Record recentLe :=
  ⟨fun a b c hab hbc => by unfold recentLe at hab hbc ⊢; omega⟩

/-- Modelled from the spec: the MongoDB collaborator behind
`SpamCheck.find().sort(createdAt descending).limit(10)` (line 169) is not
part of the repository; per spec §4.4 it returns up to 10 records,
ordered by `createdAt` descending with ties broken by insertion order,
most recently inserted first. -/
def findSortLimit (store : List Record) : List Record :=
  (store.insertionSort recentLe).take 10

/-- The `GET /api/spam/history` handler (lines 167-185): query the 10 most
recent records and map them to display views. The second component is the
store after the request (returned unchanged: the handler only reads). -/
def getSpamHistory (store : List Record) : List HistoryView × List Record :=
  ((findSortLimit store).map historyView, store)

/-- Input of the spec's end-to-end scenario 1. -/
def scenario1Input : Text :=
  "Congratulations! You are a WINNER of a FREE prize. Click here now!".toList

/-- A text matching exactly two lexicon indicators (`free` and `cash`). -/
def twoKeywordInput : Text := "free cash".toList

/-- A minimal persisted record with a chosen `id` and `createdAt`, used to
exercise the history ordering on concrete stores. -/
def witnessRecord (i t : ℕ) : Record :=
  { id := i, text := [], result := "not_spam", spamProbability := 0,
    matchedKeywords := [], createdAt := t }

/-! ## Basic lemmas about the embedded functions -/

theorem jsMin_eq_min (a b : ℚ) : jsMin a b = min a b := by
  unfold jsMin
  split
  · exact (min_eq_left (by assumption)).symm
  · exact (min_eq_right (le_of_not_le (by assumption))).symm

theorem analyzeSpam_matched (text : Text) :
    (analyzeSpam text).matchedKeywords
      = SPAM_KEYWORDS.filter (fun w => decide (w <:+: lowerText text)) := rfl

theorem analyzeSpam_probability (text : Text) :
    (analyzeSpam text).probability
      = jsMin 1 (((analyzeSpam text).matchedKeywords.length : ℚ) / 5) := rfl

theorem analyzeSpam_result (text : Text) :
    (analyzeSpam text).result
      = if (0.5 : ℚ) ≤ (analyzeSpam text).probability then "spam"
        else "not_spam" := rfl

theorem le_prob_iff (n : ℕ) (q : ℚ) (h1 : q ≤ 1) :
    q ≤ jsMin 1 ((n : ℚ) / 5) ↔ q * 5 ≤ (n : ℚ) := by
  rw [jsMin_eq_min, le_min_iff, and_iff_right h1, le_div_iff₀ (by norm_num)]

theorem prob_nonneg (n : ℕ) : 0 ≤ jsMin 1 ((n : ℚ) / 5) := by
  rw [jsMin_eq_min]
  exact le_min (by norm_num) (by positivity)

theorem prob_le_one (n : ℕ) : jsMin 1 ((n : ℚ) / 5) ≤ 1 := by
  rw [jsMin_eq_min]
  exact min_le_left _ _

theorem prob_eq_one_iff (n : ℕ) : jsMin 1 ((n : ℚ) / 5) = 1 ↔ 5 ≤ n := by
  rw [jsMin_eq_min, min_eq_left_iff, one_le_div (by norm_num)]
  constructor
  · intro h
    exact_mod_cast h
  · intro h
    exact_mod_cast h

theorem half_le_prob_iff (n : ℕ) :
    (0.5 : ℚ) ≤ jsMin 1 ((n : ℚ) / 5) ↔ 3 ≤ n := by
  rw [le_prob_iff n 0.5 (by norm_num)]
  constructor
  · intro h
    have h2 : (5 : ℚ) ≤ 2 * (n : ℚ) := by linarith
    have h3 : (5 : ℕ) ≤ 2 * n := by exact_mod_cast h2
    omega
  · intro h
    have h2 : (3 : ℚ) ≤ (n : ℚ) := by exact_mod_cast h
    linarith

theorem notify_prob_iff (n : ℕ) :
    (40 : ℚ) ≤ jsMin 1 ((n : ℚ) / 5) * 100 ↔ 2 ≤ n := by
  have hmul : (40 : ℚ) ≤ jsMin 1 ((n : ℚ) / 5) * 100
      ↔ (0.4 : ℚ) ≤ jsMin 1 ((n : ℚ) / 5) := by
    constructor <;> intro h <;> linarith
  rw [hmul, le_prob_iff n 0.4 (by norm_num)]
  constructor
  · intro h
    have h2 : (2 : ℚ) ≤ (n : ℚ) := by linarith
    exact_mod_cast h2
  · intro h
    have h2 : (2 : ℚ) ≤ (n : ℚ) := by exact_mod_cast h
    linarith

theorem keywords_lower_fixed : ∀ w ∈ SPAM_KEYWORDS, lowerText w = w := by decide

theorem keywords_nodup : SPAM_KEYWORDS.Nodup := by decide

/-! ## The claims -/

/-- C1: for every input text, the classifier's probability equals
`min(1, n/5)` where `n` is the number of matched indicators; hence
`0 ≤ probability ≤ 1` for all inputs, and `probability = 1` if and only
if `n ≥ 5`. -/
theorem C1_probability_formula (text : Text) :
    (analyzeSpam text).probability
        = min 1 (((analyzeSpam text).matchedKeywords.length : ℚ) / 5)
      ∧ 0 ≤ (analyzeSpam text).probability
      ∧ (analyzeSpam text).probability ≤ 1
      ∧ ((analyzeSpam text).probability = 1
          ↔ 5 ≤ (analyzeSpam text).matchedKeywords.length) := by
  refine ⟨?_, ?_, ?_, ?_⟩
  · rw [analyzeSpam_probability, jsMin_eq_min]
  · rw [analyzeSpam_probability]
    exact prob_nonneg _
  · rw [analyzeSpam_probability]
    exact prob_le_one _
  · rw [analyzeSpam_probability]
    exact prob_eq_one_iff _

/-- C2: for every classification the classifier produces, the verdict is
`"spam"` if and only if the probability is at least `0.5`. -/
theorem C2_verdict_iff_half (text : Text) :
    (analyzeSpam text).result = "spam"
      ↔ (0.5 : ℚ) ≤ (analyzeSpam text).probability := by
  rw [analyzeSpam_result]
  by_cases h : (0.5 : ℚ) ≤ (analyzeSpam text).probability
  · simp [h]
  · simp [h]

/-- C3: for every input text, `matchedKeywords` contains exactly those
lexicon indicators occurring as a case-insensitive substring of the text
(membership characterization), is a sublist of the lexicon (hence listed
in lexicon order), and has no duplicates (each distinct indicator at most
once). -/
theorem C3_matched_characterization (text : Text) :
    (∀ w, w ∈ (analyzeSpam text).matchedKeywords
        ↔ w ∈ SPAM_KEYWORDS ∧ lowerText w <:+: lowerText text)
      ∧ List.Sublist (analyzeSpam text).matchedKeywords SPAM_KEYWORDS
      ∧ (analyzeSpam text).matchedKeywords.Nodup := by
  refine ⟨?_, ?_, ?_⟩
  · intro w
    rw [analyzeSpam_matched, List.mem_filter]
    constructor
    · rintro ⟨hmem, hdec⟩
      refine ⟨hmem, ?_⟩
      rw [keywords_lower_fixed w hmem]
      exact of_decide_eq_true hdec
    · rintro ⟨hmem, hinf⟩
      refine ⟨hmem, ?_⟩
      rw [keywords_lower_fixed w hmem] at hinf
      exact decide_eq_true hinf
  · rw [analyzeSpam_matched]
    exact List.filter_sublist _
  · rw [analyzeSpam_matched]
    exact (List.filter_sublist _).nodup keywords_nodup

/-- C4: `shouldSend` is true iff a recipient is provided or a default one
is configured, and `probability * 100 ≥ 40`; the resolved recipient is
the caller-provided one when present, otherwise the default; with a
provided recipient, probability `0.39` does not notify and `0.40` does. -/
theorem C4_notification_policy (e de : Option Text) (p : ℚ) :
    (shouldNotify e de p = true
        ↔ ((strTruthy e = true ∨ strTruthy de = true) ∧ (40 : ℚ) ≤ p * 100))
      ∧ (strTruthy e = true → resolveRecipient e de = e)
      ∧ (strTruthy e = false → resolveRecipient e de = de)
      ∧ (strTruthy e = true
          → shouldNotify e de 0.39 = false ∧ shouldNotify e de 0.4 = true) := by
  refine ⟨?_, ?_, ?_, ?_⟩
  · simp [shouldNotify, Bool.and_eq_true, Bool.or_eq_true, decide_eq_true_eq]
  · intro h
    simp [resolveRecipient, h]
  · intro h
    simp [resolveRecipient, h]
  · intro h
    constructor
    · simp only [shouldNotify, h, Bool.true_or, Bool.true_and,
        decide_eq_false_iff_not]
      norm_num
    · simp only [shouldNotify, h, Bool.true_or, Bool.true_and,
        decide_eq_true_eq]
      norm_num

/-- Witness for C4 at a concrete provided recipient. -/
theorem C4_notification_policy_witness :
    strTruthy (some "u@example.com".toList) = true
      ∧ (shouldNotify (some "u@example.com".toList) none 0.39 = false
          ∧ shouldNotify (some "u@example.com".toList) none 0.4 = true) :=
  ⟨by decide,
   (C4_notification_policy (some "u@example.com".toList) none 0).2.2.2
     (by decide)⟩

/-- C5: for every request that passes validation, a failing mail transport
(`mailOk = false`) yields the same response and the same persisted store
as a succeeding one, and that response is the 200 body carrying the
persisted classification record. -/
theorem C5_notification_failure_isolated (store : List Record) (now : ℕ)
    (text notifyEmail defaultTo : Option Text)
    (h : blankText text = false) :
    (postSpamCheck store now text notifyEmail defaultTo false).response
        = (postSpamCheck store now text notifyEmail defaultTo true).response
      ∧ (postSpamCheck store now text notifyEmail defaultTo false).store
        = (postSpamCheck store now text notifyEmail defaultTo true).store
      ∧ (postSpamCheck store now text notifyEmail defaultTo false).response
        = .ok store.length (analyzeSpam (text.getD [])).result
            (analyzeSpam (text.getD [])).probability
            (analyzeSpam (text.getD [])).matchedKeywords now := by
  refine ⟨?_, ?_, ?_⟩ <;> simp [postSpamCheck, h]

/-- Witness for C5 at a concrete valid request. -/
theorem C5_notification_failure_isolated_witness :
    blankText (some "hello".toList) = false
      ∧ (postSpamCheck [] 0 (some "hello".toList)
            (some "a@b.example".toList) none false).response
        = (postSpamCheck [] 0 (some "hello".toList)
            (some "a@b.example".toList) none true).response :=
  ⟨by decide,
   (C5_notification_failure_isolated [] 0 (some "hello".toList)
      (some "a@b.example".toList) none (by decide)).1⟩

/-- C6: a submission whose text is empty or whitespace-only (empty after
trimming, including an absent text) is rejected with the 400 body
`"Text is required"`, the store is unchanged, and no notification is
attempted. -/
theorem C6_blank_input_rejected (store : List Record) (now : ℕ)
    (text notifyEmail defaultTo : Option Text) (mailOk : Bool)
    (h : trimText (text.getD []) = []) :
    postSpamCheck store now text notifyEmail defaultTo mailOk
      = { response := .badRequest "Text is required", store := store,
          emailAttempted := false, emailSent := false,
          emailErrorLogged := false } := by
  have hb : blankText text = true := by
    cases text with
    | none => rfl
    | some t =>
      simp only [Option.getD] at h
      simp [blankText, h]
  simp [postSpamCheck, hb]

/-- Witness for C6 at a whitespace-only text. -/
theorem C6_blank_input_rejected_witness :
    trimText ((some "   ".toList).getD []) = []
      ∧ postSpamCheck [] 0 (some "   ".toList) none none true
        = { response := .badRequest "Text is required", store := [],
            emailAttempted := false, emailSent := false,
            emailErrorLogged := false } :=
  ⟨by decide,
   C6_blank_input_rejected [] 0 (some "   ".toList) none none true (by decide)⟩

/-- C7: for every store of appended records (distinct ids), the history
response has at most 10 entries, is strictly ordered by `createdAt`
descending with ties broken by insertion order (larger id, i.e. more
recently inserted, first), and the store is not mutated. -/
theorem C7_history_ordering (store : List Record)
    (hids : store.Pairwise (fun a b => a.id ≠ b.id)) :
    (getSpamHistory store).1.length ≤ 10
      ∧ (getSpamHistory store).1.Pairwise
          (fun u v => v.createdAt < u.createdAt
            ∨ (v.createdAt = u.createdAt ∧ v.id < u.id))
      ∧ (getSpamHistory store).2 = store := by
  refine ⟨?_, ?_, rfl⟩
  · show ((findSortLimit store).map historyView).length ≤ 10
    rw [List.length_map, findSortLimit, List.length_take]
    exact min_le_left _ _
  · show ((findSortLimit store).map historyView).Pairwise _
    rw [List.pairwise_map]
    have hsorted : (store.insertionSort recentLe).Pairwise recentLe :=
      List.sorted_insertionSort recentLe store
    have hperm : List.Perm (store.insertionSort recentLe) store :=
      List.perm_insertionSort recentLe store
    have hne : (store.insertionSort recentLe).Pairwise
        (fun a b => a.id ≠ b.id) :=
      (hperm.pairwise_iff (fun hab => Ne.symm hab)).mpr hids
    have hcomb := hsorted.and hne
    have htake := hcomb.sublist (List.take_sublist 10 _)
    refine htake.imp ?_
    intro a b hab
    obtain ⟨hle, hneq⟩ := hab
    show b.createdAt < a.createdAt ∨ (b.createdAt = a.createdAt ∧ b.id < a.id)
    unfold recentLe at hle
    omega

/-- Witness for C7 on a concrete three-record store with a `createdAt`
tie. -/
theorem C7_history_ordering_witness :
    ([witnessRecord 0 5, witnessRecord 1 9, witnessRecord 2 9]
        : List Record).Pairwise (fun a b => a.id ≠ b.id)
      ∧ (getSpamHistory
          [witnessRecord 0 5, witnessRecord 1 9, witnessRecord 2 9]).1.length
          ≤ 10
      ∧ (getSpamHistory
          [witnessRecord 0 5, witnessRecord 1 9, witnessRecord 2 9]).1.Pairwise
          (fun u v => v.createdAt < u.createdAt
            ∨ (v.createdAt = u.createdAt ∧ v.id < u.id)) :=
  ⟨by decide,
   (C7_history_ordering
      [witnessRecord 0 5, witnessRecord 1 9, witnessRecord 2 9]
      (by decide)).1,
   (C7_history_ordering
      [witnessRecord 0 5, witnessRecord 1 9, witnessRecord 2 9]
      (by decide)).2.1⟩

/-- C8: a history view truncates a persisted text longer than 80
characters to its first 77 characters followed by the three-character
ellipsis marker (80 characters total), leaves a text of length at most 80
unchanged, and the persisted store itself is returned untouched. -/
theorem C8_history_truncation (t : Text) (store : List Record) :
    (80 < t.length
        → truncateText t = t.take 77 ++ ("...".toList)
          ∧ (truncateText t).length = 80)
      ∧ (t.length ≤ 80 → truncateText t = t)
      ∧ (getSpamHistory store).2 = store := by
  refine ⟨?_, ?_, rfl⟩
  · intro h
    have he : truncateText t = t.take 77 ++ ("...".toList) := by
      unfold truncateText
      rw [if_pos h]
    refine ⟨he, ?_⟩
    rw [he]
    have h3 : ("...".toList).length = 3 := rfl
    simp only [List.length_append, List.length_take, h3]
    omega
  · intro h
    unfold truncateText
    rw [if_neg (by omega)]

/-- Witness for C8 at a 100-character and a 50-character text. -/
theorem C8_history_truncation_witness :
    (80 < (List.replicate 100 'a').length
        ∧ (truncateText (List.replicate 100 'a')).length = 80)
      ∧ ((List.replicate 50 'a').length ≤ 80
        ∧ truncateText (List.replicate 50 'a') = List.replicate 50 'a') :=
  ⟨⟨by decide,
    ((C8_history_truncation (List.replicate 100 'a') []).1 (by decide)).2⟩,
   ⟨by decide,
    (C8_history_truncation (List.replicate 50 'a') []).2.1 (by decide)⟩⟩

/-- C9: on the spec's scenario-1 input, the matched indicators include
`congratulations`, `winner`, `free`, `prize` and `click here`, the
probability is `1`, and the verdict is `"spam"`. -/
theorem C9_scenario1 :
    "congratulations".toList ∈ (analyzeSpam scenario1Input).matchedKeywords
      ∧ "winner".toList ∈ (analyzeSpam scenario1Input).matchedKeywords
      ∧ "free".toList ∈ (analyzeSpam scenario1Input).matchedKeywords
      ∧ "prize".toList ∈ (analyzeSpam scenario1Input).matchedKeywords
      ∧ "click here".toList ∈ (analyzeSpam scenario1Input).matchedKeywords
      ∧ (analyzeSpam scenario1Input).probability = 1
      ∧ (analyzeSpam scenario1Input).result = "spam" := by
  have hlen : (analyzeSpam scenario1Input).matchedKeywords.length = 6 := by
    decide
  have hp : (analyzeSpam scenario1Input).probability = 1 := by
    rw [analyzeSpam_probability, hlen]
    norm_num [jsMin]
  refine ⟨by decide, by decide, by decide, by decide, by decide, hp, ?_⟩
  rw [analyzeSpam_result, hp, if_pos (by norm_num : (0.5 : ℚ) ≤ 1)]

/-- C10: notification is not restricted to spam verdicts: the concrete
two-indicator input has verdict `"not_spam"` and probability `0.4`, yet
with a provided recipient the notification fires; in general, with a
provided recipient, notification fires iff at least 2 indicators matched,
while the spam verdict requires at least 3. -/
theorem C10_notify_without_spam_verdict (text : Text) (e de : Option Text)
    (he : strTruthy e = true) :
    ((analyzeSpam twoKeywordInput).result = "not_spam"
        ∧ (analyzeSpam twoKeywordInput).probability = 0.4
        ∧ shouldNotify e de (analyzeSpam twoKeywordInput).probability = true)
      ∧ (shouldNotify e de (analyzeSpam text).probability = true
          ↔ 2 ≤ (analyzeSpam text).matchedKeywords.length)
      ∧ ((analyzeSpam text).result = "spam"
          ↔ 3 ≤ (analyzeSpam text).matchedKeywords.length) := by
  have hlen2 : (analyzeSpam twoKeywordInput).matchedKeywords.length = 2 := by
    decide
  have hp2 : (analyzeSpam twoKeywordInput).probability = 0.4 := by
    rw [analyzeSpam_probability, hlen2]
    norm_num [jsMin]
  refine ⟨⟨?_, hp2, ?_⟩, ?_, ?_⟩
  · rw [analyzeSpam_result, hp2,
      if_neg (by norm_num : ¬ (0.5 : ℚ) ≤ 0.4)]
  · simp only [shouldNotify, he, Bool.true_or, Bool.true_and, hp2,
      decide_eq_true_eq]
    norm_num
  · simp only [shouldNotify, he, Bool.true_or, Bool.true_and,
      decide_eq_true_eq]
    rw [analyzeSpam_probability]
    exact notify_prob_iff _
  · rw [analyzeSpam_result]
    by_cases hc : (0.5 : ℚ) ≤ (analyzeSpam text).probability
    · rw [if_pos hc]
      rw [analyzeSpam_probability] at hc
      simp only [true_iff, (half_le_prob_iff _).mp hc]
    · rw [if_neg hc]
      constructor
      · intro habs
        exact absurd habs (by simp)
      · intro h3
        exact absurd ((half_le_prob_iff _).mpr h3)
          (by rwa [analyzeSpam_probability] at hc)

/-- Witness for C10 at the concrete two-indicator input and a provided
recipient. -/
theorem C10_notify_without_spam_verdict_witness :
    strTruthy (some "u@example.net".toList) = true
      ∧ ((analyzeSpam twoKeywordInput).result = "not_spam"
          ∧ (analyzeSpam twoKeywordInput).probability = 0.4
          ∧ shouldNotify (some "u@example.net".toList) none
              (analyzeSpam twoKeywordInput).probability = true) :=
  ⟨by decide,
   (C10_notify_without_spam_verdict twoKeywordInput
      (some "u@example.net".toList) none (by decide)).1⟩

end SpamDetector
